import Mathlib

/-!
Shallow embedding of the PlayWright_MCP session orchestrator.

The embedded code comes from:
  - `tests/agent_with_pdf_reports.py` (class `PlaywrightAgent`): the
    interactive agent with PDF reports;
  - `tests/Login/login_automation.py` (class `LoginAutomationAgent`): the
    scripted single-shot login workflow;
  - `src/agent.py` (function `run`): the bare interactive agent.

External effects (wall-clock reads, the filesystem seen by `glob.glob`,
the outcome of each dispatched request, and the readability of each
screenshot file at render time) are passed in as explicit parameters, so
each Python method becomes a pure Lean function of its inputs plus those
environments.
-/

namespace PlayWrightMCP

/-- One entry of `self.session_log`, as built by `log_action`:
`{"timestamp": ..., "action": action, "result": result, "error": error}`.
Wall-clock timestamps (second resolution) are modelled as `Nat`. -/
structure Event where
  timestamp : Nat
  action : String
  result : Option String
  error : Option String
  deriving Repr, DecidableEq

/-- The mutable fields of `PlaywrightAgent.__init__` /
`LoginAutomationAgent.__init__` that the claims touch. -/
structure AgentState where
  session_id : String
  output_dir : String
  screenshots_dir : String
  reports_dir : String
  session_screenshots : List String
  session_log : List Event
  deriving Repr, DecidableEq

/-- `__init__`: `output_dir = "output"`, `screenshots_dir = f"{output_dir}/screenshots"`,
`reports_dir = f"{output_dir}/reports"`, empty screenshot list and log.
`session_id` is the timestamp-derived identifier, passed in. -/
def AgentState.init (session_id : String) : AgentState :=
  { session_id := session_id
    output_dir := "output"
    screenshots_dir := "output" ++ "/screenshots"
    reports_dir := "output" ++ "/reports"
    session_screenshots := []
    session_log := [] }

/-- `log_action(self, action, result=None, error=None)`: reads the clock
(`now`), appends one entry to `session_log`.  Nothing else is touched. -/
def log_action (st : AgentState) (now : Nat) (action : String)
    (result : Option String := none) (error : Option String := none) : AgentState :=
  { st with session_log :=
      st.session_log ++ [{ timestamp := now, action := action, result := result, error := error }] }

/-- The list of glob patterns scanned by `collect_screenshots`:
`["*.png", f"{self.output_dir}/*.png", f"{self.screenshots_dir}/*.png"]`. -/
def screenshot_patterns (output_dir screenshots_dir : String) : List String :=
  ["*.png", output_dir ++ "/*.png", screenshots_dir ++ "/*.png"]

/-- The inner loop of `collect_screenshots`:
`for file in files: if file not in self.session_screenshots: append(file)`. -/
def addFiles (shots : List String) (files : List String) : List String :=
  files.foldl (fun acc file => if file ∈ acc then acc else acc ++ [file]) shots

/-- `collect_screenshots(self)` on the screenshot list alone: `glob` is the
filesystem, mapping a pattern to its list of matches (in `glob.glob` order). -/
def collect_screenshots (glob : String → List String)
    (output_dir screenshots_dir : String) (shots : List String) : List String :=
  (screenshot_patterns output_dir screenshots_dir).foldl
    (fun acc pattern => addFiles acc (glob pattern)) shots

/-- `collect_screenshots` at the level of the whole agent state: only
`session_screenshots` changes. -/
def AgentState.collect (glob : String → List String) (st : AgentState) : AgentState :=
  { st with session_screenshots :=
      collect_screenshots glob st.output_dir st.screenshots_dir st.session_screenshots }

section CollectLemmas

/-- Collecting screenshots does not touch the event log. -/
theorem collect_session_log (glob : String → List String) (st : AgentState) :
    (AgentState.collect glob st).session_log = st.session_log := rfl

theorem addFiles_append_tail (shots files : List String) :
    ∃ tail, addFiles shots files = shots ++ tail := by
  induction files generalizing shots with
  | nil => exact ⟨[], by simp [addFiles]⟩
  | cons f fs ih =>
    simp only [addFiles, List.foldl_cons] at *
    by_cases h : f ∈ shots
    · simpa [h] using ih shots
    · obtain ⟨t, ht⟩ := ih (shots ++ [f])
      exact ⟨f :: t, by simp [h, ht]⟩

theorem mem_addFiles_of_mem_left {x : String} (shots files : List String)
    (h : x ∈ shots) : x ∈ addFiles shots files := by
  obtain ⟨t, ht⟩ := addFiles_append_tail shots files
  rw [ht]; exact List.mem_append_left _ h

theorem mem_addFiles_of_mem_right {x : String} (shots files : List String)
    (h : x ∈ files) : x ∈ addFiles shots files := by
  induction files generalizing shots with
  | nil => cases h
  | cons f fs ih =>
    simp only [addFiles, List.foldl_cons]
    rcases List.mem_cons.mp h with rfl | hmem
    · by_cases hx : x ∈ shots
      · exact mem_addFiles_of_mem_left _ _ (by simp [hx])
      · exact mem_addFiles_of_mem_left _ _ (by simp [hx])
    · by_cases hf : f ∈ shots
      · simpa [hf] using ih _ hmem
      · simpa [hf] using ih _ hmem

theorem addFiles_of_subset (shots files : List String)
    (h : ∀ f ∈ files, f ∈ shots) : addFiles shots files = shots := by
  induction files with
  | nil => rfl
  | cons f fs ih =>
    have hf : f ∈ shots := h f (List.mem_cons_self _ _)
    simp only [addFiles, List.foldl_cons, if_pos hf]
    exact ih fun g hg => h g (List.mem_cons_of_mem _ hg)

theorem addFiles_nodup (shots files : List String) (h : shots.Nodup) :
    (addFiles shots files).Nodup := by
  induction files generalizing shots with
  | nil => exact h
  | cons f fs ih =>
    simp only [addFiles, List.foldl_cons]
    by_cases hf : f ∈ shots
    · simpa [hf] using ih shots h
    · have : (shots ++ [f]).Nodup := by simp [List.nodup_append, h, hf]
      simpa [hf] using ih _ this

theorem collect_append_tail (glob : String → List String)
    (od sd : String) (shots : List String) :
    ∃ tail, collect_screenshots glob od sd shots = shots ++ tail := by
  simp only [collect_screenshots, screenshot_patterns, List.foldl_cons, List.foldl_nil]
  obtain ⟨t1, h1⟩ := addFiles_append_tail shots (glob "*.png")
  obtain ⟨t2, h2⟩ := addFiles_append_tail (addFiles shots (glob "*.png")) (glob (od ++ "/*.png"))
  obtain ⟨t3, h3⟩ := addFiles_append_tail
    (addFiles (addFiles shots (glob "*.png")) (glob (od ++ "/*.png"))) (glob (sd ++ "/*.png"))
  refine ⟨t1 ++ t2 ++ t3, ?_⟩
  rw [h3, h2, h1]
  simp

theorem mem_collect_of_mem_left {x : String} (glob : String → List String)
    (od sd : String) (shots : List String) (h : x ∈ shots) :
    x ∈ collect_screenshots glob od sd shots := by
  obtain ⟨t, ht⟩ := collect_append_tail glob od sd shots
  rw [ht]; exact List.mem_append_left _ h

theorem mem_collect_of_mem_glob {x : String} (glob : String → List String)
    (od sd : String) (shots : List String) (p : String)
    (hp : p ∈ screenshot_patterns od sd) (h : x ∈ glob p) :
    x ∈ collect_screenshots glob od sd shots := by
  simp only [collect_screenshots, screenshot_patterns, List.foldl_cons, List.foldl_nil]
  simp only [screenshot_patterns, List.mem_cons, List.not_mem_nil, or_false] at hp
  rcases hp with rfl | rfl | rfl
  · exact mem_addFiles_of_mem_left _ _ (mem_addFiles_of_mem_left _ _
      (mem_addFiles_of_mem_right _ _ h))
  · exact mem_addFiles_of_mem_left _ _ (mem_addFiles_of_mem_right _ _ h)
  · exact mem_addFiles_of_mem_right _ _ h

theorem foldl_addFiles_of_subset (glob : String → List String)
    (patterns : List String) (s : List String)
    (h : ∀ p ∈ patterns, ∀ f ∈ glob p, f ∈ s) :
    patterns.foldl (fun acc p => addFiles acc (glob p)) s = s := by
  induction patterns with
  | nil => rfl
  | cons p ps ih =>
    simp only [List.foldl_cons]
    rw [addFiles_of_subset s (glob p) (h p (List.mem_cons_self _ _))]
    exact ih fun q hq f hf => h q (List.mem_cons_of_mem _ hq) f hf

theorem collect_idem (glob : String → List String) (od sd : String)
    (shots : List String) :
    collect_screenshots glob od sd (collect_screenshots glob od sd shots) =
      collect_screenshots glob od sd shots := by
  show (screenshot_patterns od sd).foldl (fun acc p => addFiles acc (glob p)) _ = _
  exact foldl_addFiles_of_subset glob _ _
    fun p hp f hf => mem_collect_of_mem_glob glob od sd shots p hp hf

theorem collect_nodup (glob : String → List String) (od sd : String)
    (shots : List String) (h : shots.Nodup) :
    (collect_screenshots glob od sd shots).Nodup := by
  simp only [collect_screenshots, screenshot_patterns, List.foldl_cons, List.foldl_nil]
  exact addFiles_nodup _ _ (addFiles_nodup _ _ (addFiles_nodup _ _ h))

end CollectLemmas

/-! ## Report synthesis (`generate_pdf_report`) -/

/-- `os.path.basename`: the part of the path after the last `/`. -/
def basename (s : String) : String :=
  (s.splitOn "/").getLastD s

/-- Result-text truncation, written exactly as both workflows write it:
`output[:bound] + "..." if len(output) > bound else output`
(`bound` is 200 in the interactive agent, 500 in the login workflow). -/
def truncateResult (bound : Nat) (s : String) : String :=
  if s.length > bound then s.take bound ++ "..." else s

/-- One flowable appended to `story` by `generate_pdf_report`.  Spacer
sizes, fonts and colours are dropped; the text content of each paragraph
is kept. -/
inductive Block where
  | title (text : String)
  | spacer
  | sessionIdLine (sid : String)
  | generatedLine (t : Nat)
  | totalActionsLine (n : Nat)
  | heading (text : String)
  | actionHeader (i : Nat) (action : String)
  | timeLine (t : Nat)
  | resultLine (text : String)
  | errorLine (text : String)
  | pageBreak
  | image (path : String)
  | caption (text : String)
  | imageError (path : String)
  deriving Repr, DecidableEq

/-- Readability of one screenshot file at render time: `absent` means
`os.path.exists` is false, `unreadable` means the file exists but
`Image(...)` raises, `readable` means the image block is built. -/
inductive FileStatus where
  | absent
  | readable
  | unreadable
  deriving Repr, DecidableEq

/-- The blocks produced for one `session_log` entry (the loop body
`for i, log_entry in enumerate(self.session_log, 1)`): action header,
time line, then `result` and `error` lines only when those fields are
truthy in Python (present and non-empty), then a spacer. -/
def entryStory (i : Nat) (e : Event) : List Block :=
  [Block.actionHeader i e.action, Block.timeLine e.timestamp] ++
    (match e.result with
      | some r => if r = "" then [] else [Block.resultLine r]
      | none => []) ++
    (match e.error with
      | some m => if m = "" then [] else [Block.errorLine m]
      | none => []) ++
    [Block.spacer]

/-- The screenshots section: emitted only when `session_screenshots` is
non-empty; a screenshot whose file no longer exists contributes nothing,
one whose `Image` construction raises contributes the inline error
paragraph, and a readable one contributes image, caption and spacer. -/
def screenshotStory (stat : String → FileStatus) (shots : List String) : List Block :=
  if shots = [] then []
  else
    Block.pageBreak :: Block.heading "Screenshots" :: Block.spacer ::
      (shots.map fun s =>
        match stat s with
        | FileStatus.absent => []
        | FileStatus.readable => [Block.image s, Block.caption (basename s), Block.spacer]
        | FileStatus.unreadable => [Block.imageError s]).flatten

/-- `generate_pdf_report` as a pure document: title block, session
metadata, the full log, then the screenshots section.  `genTime` is the
`datetime.now()` read for the `Generated:` line; `stat` is the state of
the filesystem at render time. -/
def reportStory (title logHeading : String) (st : AgentState) (genTime : Nat)
    (stat : String → FileStatus) : List Block :=
  [Block.title title, Block.spacer,
   Block.sessionIdLine st.session_id, Block.generatedLine genTime,
   Block.totalActionsLine st.session_log.length, Block.spacer,
   Block.heading logHeading, Block.spacer] ++
    (st.session_log.enum.map fun ie => entryStory (ie.1 + 1) ie.2).flatten ++
    screenshotStory stat st.session_screenshots

/-- `f"{self.reports_dir}/playwright_session_{self.session_id}.pdf"`. -/
def report_filename (st : AgentState) : String :=
  st.reports_dir ++ "/playwright_session_" ++ st.session_id ++ ".pdf"

/-- `f"{self.reports_dir}/login_automation_{self.session_id}.pdf"`. -/
def login_report_filename (st : AgentState) : String :=
  st.reports_dir ++ "/login_automation_" ++ st.session_id ++ ".pdf"

/-! ## The interactive orchestrator (`PlaywrightAgent.run`) -/

/-- The externally determined outcome of one awaited
`Runner.run(agent, input=request)` under `asyncio.wait_for`. -/
inductive Outcome where
  | ok (text : String)
  | timeout
  | err (msg : String)
  deriving Repr, DecidableEq

/-- One iteration of the REPL as seen from outside: the line typed at the
prompt, the clock reading when the request is logged (`t1`), the dispatch
outcome, and the clock reading when the outcome is logged (`t2`). -/
structure ScriptItem where
  input : String
  t1 : Nat
  outcome : Outcome
  t2 : Nat
  deriving Repr, DecidableEq

/-- The observable operations of one run, in the order performed. -/
inductive Step where
  | logEvent (e : Event)
  | dispatch (request : String)
  | collect
  | report (filename : String)
  | releaseServer
  deriving Repr, DecidableEq

/-- Python `request.lower()`: character-wise lowercasing of the whole
line (whitespace and punctuation pass through unchanged). -/
def lower (s : String) : String := ⟨s.data.map Char.toLower⟩

/-- The event appended after a dispatch in the interactive agent:
normal completion logs `"Request Completed"` with the 200-character
truncation, `asyncio.TimeoutError` logs `"Request Timeout"`, any other
exception logs `"Request Error"` with `str(e)`. -/
def dispatchEvent (t : Nat) : Outcome → Event
  | Outcome.ok text => ⟨t, "Request Completed", some (truncateResult 200 text), none⟩
  | Outcome.timeout => ⟨t, "Request Timeout", none, some "Request timed out after 2 minutes"⟩
  | Outcome.err msg => ⟨t, "Request Error", none, some msg⟩

/-- The `while True` REPL of `PlaywrightAgent.run`: `exit` (after
`.lower()`) breaks; `report` collects screenshots and renders an
on-demand report without logging; anything else is logged as a user
request, dispatched, and its outcome logged.  The script ending plays
the role of the prompt never being answered again. -/
def runLoop (glob : String → List String) : AgentState → List ScriptItem → AgentState × List Step
  | st, [] => (st, [])
  | st, item :: rest =>
    if lower item.input = "exit" then (st, [])
    else if lower item.input = "report" then
      let st1 := AgentState.collect glob st
      let next := runLoop glob st1 rest
      (next.1, Step.collect :: Step.report (report_filename st1) :: next.2)
    else
      let reqEvent : Event := ⟨item.t1, "User Request: " ++ item.input, none, none⟩
      let outEvent : Event := dispatchEvent item.t2 item.outcome
      let st2 : AgentState :=
        { st with session_log := st.session_log ++ [reqEvent, outEvent] }
      let next := runLoop glob st2 rest
      (next.1, Step.logEvent reqEvent :: Step.dispatch item.input ::
        Step.logEvent outEvent :: next.2)

/-- `PlaywrightAgent.run`.  `acquire = some msg` means `MCPServerStdio`
failed to start (spawn error or handshake failure) with `str(e) = msg`;
`acquire = none` means the server came up.  On startup failure the
`except` branch logs `"MCP Server Error"`; in both cases the `finally`
block collects screenshots and generates the final report — but only
after the `async with` block has already released the server on the
success path. -/
def run (glob : String → List String) (acquire : Option String)
    (tStart tAgent tFail : Nat) (items : List ScriptItem) (st0 : AgentState) :
    AgentState × List Step :=
  match acquire with
  | some msg =>
    let st1 := log_action st0 tFail "MCP Server Error" none (some msg)
    let st2 := AgentState.collect glob st1
    (st2, [Step.logEvent ⟨tFail, "MCP Server Error", none, some msg⟩,
           Step.collect, Step.report (report_filename st2)])
  | none =>
    let st1 := log_action st0 tStart "MCP Server Started" (some "Server initialized successfully") none
    let st2 := log_action st1 tAgent "AI Agent Created" (some "Agent initialized successfully") none
    let loop := runLoop glob st2 items
    let st3 := AgentState.collect glob loop.1
    (st3,
      Step.logEvent ⟨tStart, "MCP Server Started", some "Server initialized successfully", none⟩ ::
      Step.logEvent ⟨tAgent, "AI Agent Created", some "Agent initialized successfully", none⟩ ::
      loop.2 ++ [Step.releaseServer, Step.collect, Step.report (report_filename st3)])

/-! ## The scripted orchestrator (`LoginAutomationAgent.run_login_automation`) -/

/-- The login command string built from `url`, `username`, `password`. -/
def login_command (url : String) (username password : Option String) : String :=
  let base := "Navigate to " ++ url ++ " and take a screenshot of the login page"
  match username, password with
  | some u, some p =>
    base ++ ". Then perform a login with username \x27" ++ u ++ "\x27 and password \x27" ++ p ++
      "\x27. Take screenshots at each step: before filling the form, after filling the form, and after submitting. Check if the login was successful."
  | _, _ =>
    base ++ ". Look for login form elements and take screenshots of the login page."

/-- `run_login_automation(url, username, password)`.  A timeout or any
other exception raised inside the `async with` block propagates out of
it (releasing the server on the way) and is caught by the single
`except Exception` handler, which logs `"Login Automation Error"` with
`str(e)` — for `asyncio.TimeoutError` that string is empty.  The
`finally` block then collects screenshots and generates the report.
Returns the final state, the trace, and the Python return value. -/
def run_login_automation (glob : String → List String) (acquire : Option String)
    (tStart tAgent tCmd tDone : Nat) (url : String) (username password : Option String)
    (outcome : Outcome) (st0 : AgentState) :
    AgentState × List Step × Option String :=
  match acquire with
  | some msg =>
    let st1 := log_action st0 tDone "Login Automation Error" none (some msg)
    let st2 := AgentState.collect glob st1
    (st2, [Step.logEvent ⟨tDone, "Login Automation Error", none, some msg⟩,
           Step.collect, Step.report (login_report_filename st2)], none)
  | none =>
    let st1 := log_action st0 tStart "MCP Server Started" (some "Server initialized successfully") none
    let st2 := log_action st1 tAgent "AI Agent Created" (some "Agent initialized successfully") none
    let st3 := log_action st2 tCmd "Login Automation Started" (some ("URL: " ++ url)) none
    let startEvents : List Step :=
      [Step.logEvent ⟨tStart, "MCP Server Started", some "Server initialized successfully", none⟩,
       Step.logEvent ⟨tAgent, "AI Agent Created", some "Agent initialized successfully", none⟩,
       Step.logEvent ⟨tCmd, "Login Automation Started", some ("URL: " ++ url), none⟩]
    let cmd := login_command url username password
    match outcome with
    | Outcome.ok text =>
      let doneEvent : Event :=
        ⟨tDone, "Login Automation Completed", some (truncateResult 500 text), none⟩
      let st4 := { st3 with session_log := st3.session_log ++ [doneEvent] }
      let st5 := AgentState.collect glob st4
      (st5, startEvents ++ [Step.dispatch cmd, Step.logEvent doneEvent,
        Step.releaseServer, Step.collect, Step.report (login_report_filename st5)], some text)
    | Outcome.timeout =>
      let errEvent : Event := ⟨tDone, "Login Automation Error", none, some ""⟩
      let st4 := { st3 with session_log := st3.session_log ++ [errEvent] }
      let st5 := AgentState.collect glob st4
      (st5, startEvents ++ [Step.dispatch cmd, Step.releaseServer, Step.logEvent errEvent,
        Step.collect, Step.report (login_report_filename st5)], none)
    | Outcome.err msg =>
      let errEvent : Event := ⟨tDone, "Login Automation Error", none, some msg⟩
      let st4 := { st3 with session_log := st3.session_log ++ [errEvent] }
      let st5 := AgentState.collect glob st4
      (st5, startEvents ++ [Step.dispatch cmd, Step.releaseServer, Step.logEvent errEvent,
        Step.collect, Step.report (login_report_filename st5)], none)

/-! ## Input classification (the REPL command checks) -/

/-- Kind of one input line in the interactive agents. -/
inductive InputKind where
  | exitCmd
  | reportCmd
  | dispatchReq
  deriving Repr, DecidableEq

/-- The command checks of `PlaywrightAgent.run`, in source order:
`if request.lower() == "exit"` then `if request.lower() == "report"`,
everything else dispatched. -/
def classifyInput (s : String) : InputKind :=
  if lower s = "exit" then InputKind.exitCmd
  else if lower s = "report" then InputKind.reportCmd
  else InputKind.dispatchReq

/-- The single command check of `src/agent.py run`: only
`if request.lower() == "exit"`; there is no `report` command there. -/
def classifyInputBasic (s : String) : InputKind :=
  if lower s = "exit" then InputKind.exitCmd
  else InputKind.dispatchReq

/-! ## Trace observations -/

/-- The filenames of all reports synthesized during a trace, in order. -/
def reportFilenames (tr : List Step) : List String :=
  tr.filterMap fun s =>
    match s with
    | Step.report f => some f
    | _ => none

/-- Whether the trace contains an artifact-collection step. -/
def containsCollect : List Step → Bool
  | [] => false
  | Step.collect :: _ => true
  | _ :: rest => containsCollect rest

/-- Whether the trace releases the tool-process session strictly before
some artifact-collection step. -/
def releasedBeforeCollect : List Step → Bool
  | [] => false
  | Step.releaseServer :: rest => containsCollect rest || releasedBeforeCollect rest
  | _ :: rest => releasedBeforeCollect rest

/-! ## Concrete environments used by the counterexamples and witnesses -/

/-- A filesystem on which every glob pattern matches nothing. -/
def globEmpty : String → List String := fun _ => []

/-- A filesystem where the working directory holds `link.png`, a symbolic
link to `output/real.png`: `glob.glob("*.png")` returns the link name and
`glob.glob("output/*.png")` returns the target name. -/
def globLink : String → List String := fun p =>
  if p = "*.png" then ["link.png"]
  else if p = "output/*.png" then ["output/real.png"]
  else []

/-- Path resolution (`os.path.realpath`) on that filesystem: both names
denote the same file `/abs/real.png`. -/
def resolvePath : String → String := fun s =>
  if s = "link.png" then "/abs/real.png"
  else if s = "output/real.png" then "/abs/real.png"
  else s

/-- A render-time filesystem on which every collected file has vanished. -/
def statGone : String → FileStatus := fun _ => FileStatus.absent

/-- A render-time filesystem with one unreadable, one readable and one
vanished file. -/
def statMixed : String → FileStatus := fun s =>
  if s = "u.png" then FileStatus.unreadable
  else if s = "r.png" then FileStatus.readable
  else FileStatus.absent

/-- A script line that exits immediately. -/
def exitItem : ScriptItem := ⟨"exit", 0, Outcome.ok "", 0⟩

/-- A script line that asks for an on-demand report. -/
def reportItem : ScriptItem := ⟨"report", 0, Outcome.ok "", 0⟩

/-! ## C5 — artifact collection -/

/-- C5 counterexample.  The claim says the same file, identified by its
RESOLVED filesystem path, is never added twice.  On a filesystem where
`link.png` is a symlink to `output/real.png`, the first pattern returns
the link name and the second the target name; `collect_screenshots`
deduplicates by the literal string (`if file not in self.session_screenshots`),
so both names are appended even though they resolve to the same file. -/
theorem collect_resolved_path_duplicate :
    collect_screenshots globLink "output" "output/screenshots" [] =
      ["link.png", "output/real.png"] ∧
    ¬ ((collect_screenshots globLink "output" "output/screenshots" []).map
        resolvePath).Nodup := by
  constructor
  · rfl
  · decide

/-- C5 (amended): collection only appends (monotonic), a second call on an
unchanged filesystem is a no-op (idempotent), and the same literal path
string is never added twice (the set stays duplicate-free when it starts
so); identity is the literal string returned by the scan, not the
resolved path. -/
theorem collect_monotone_idempotent_nodup
    (glob : String → List String) (od sd : String) (shots : List String) :
    (∃ tail, collect_screenshots glob od sd shots = shots ++ tail) ∧
    collect_screenshots glob od sd (collect_screenshots glob od sd shots) =
      collect_screenshots glob od sd shots ∧
    (shots.Nodup → (collect_screenshots glob od sd shots).Nodup) :=
  ⟨collect_append_tail glob od sd shots, collect_idem glob od sd shots,
    collect_nodup glob od sd shots⟩

/-- C5 witness: the amended theorem evaluated on the symlink filesystem
starting from the empty set. -/
theorem collect_monotone_idempotent_nodup_witness :
    (∃ tail, collect_screenshots globLink "output" "output/screenshots" [] = [] ++ tail) ∧
    collect_screenshots globLink "output" "output/screenshots"
        (collect_screenshots globLink "output" "output/screenshots" []) =
      collect_screenshots globLink "output" "output/screenshots" [] ∧
    (collect_screenshots globLink "output" "output/screenshots" []).Nodup := by
  have h := collect_monotone_idempotent_nodup globLink "output" "output/screenshots" []
  exact ⟨h.1, h.2.1, h.2.2 List.nodup_nil⟩

/-! ## Structural lemmas about the interactive loop -/

theorem runLoop_log_append (glob : String → List String) :
    ∀ (items : List ScriptItem) (st : AgentState),
      ∃ tail, (runLoop glob st items).1.session_log = st.session_log ++ tail
  | [], st => ⟨[], by simp [runLoop]⟩
  | item :: rest, st => by
    by_cases hx : lower item.input = "exit"
    · exact ⟨[], by simp [runLoop, hx]⟩
    · by_cases hrep : lower item.input = "report"
      · obtain ⟨t, ht⟩ := runLoop_log_append glob rest (AgentState.collect glob st)
        exact ⟨t, by simp [runLoop, hx, hrep]; simpa [AgentState.collect] using ht⟩
      · obtain ⟨t, ht⟩ := runLoop_log_append glob rest
          { st with session_log := st.session_log ++
              [⟨item.t1, "User Request: " ++ item.input, none, none⟩,
               dispatchEvent item.t2 item.outcome] }
        refine ⟨[⟨item.t1, "User Request: " ++ item.input, none, none⟩,
                 dispatchEvent item.t2 item.outcome] ++ t, ?_⟩
        simp only [runLoop, hx, hrep, if_neg, if_false]
        simpa using ht

theorem runLoop_no_release (glob : String → List String) :
    ∀ (items : List ScriptItem) (st : AgentState),
      Step.releaseServer ∉ (runLoop glob st items).2
  | [], st => by simp [runLoop]
  | item :: rest, st => by
    by_cases hx : lower item.input = "exit"
    · simp [runLoop, hx]
    · by_cases hrep : lower item.input = "report"
      · simpa [runLoop, hx, hrep] using
          runLoop_no_release glob rest (AgentState.collect glob st)
      · simpa [runLoop, hx, hrep] using runLoop_no_release glob rest _

/-! ## C1 — order of teardown actions in `Terminating` -/

/-- C1 counterexample.  The claim says the tool process is never released
before artifact collection and report synthesis.  In the source the
server is released when control leaves the `async with` block, which
happens BEFORE the `finally` block that collects screenshots and builds
the report: in the trace of a normal `exit` run, `releaseServer` appears
strictly before the final `collect`. -/
theorem release_before_collect_counterexample :
    (run globEmpty none 0 0 0 [exitItem] (AgentState.init "S")).2 =
      [Step.logEvent ⟨0, "MCP Server Started", some "Server initialized successfully", none⟩,
       Step.logEvent ⟨0, "AI Agent Created", some "Agent initialized successfully", none⟩,
       Step.releaseServer, Step.collect,
       Step.report "output/reports/playwright_session_S.pdf"] ∧
    releasedBeforeCollect (run globEmpty none 0 0 0 [exitItem] (AgentState.init "S")).2 = true := by
  constructor
  · rfl
  · decide

/-- C1 (amended): on every exit path — normal completion, request error,
startup failure or cancellation — the run ends with artifact collection
followed by report synthesis, in that order, as its final two actions;
but when the server was acquired it is released immediately BEFORE that
final collection and synthesis (never after them), and it is never
released anywhere inside the request loop. -/
theorem terminating_collect_report_release_order
    (glob : String → List String) (acquire : Option String)
    (tS tA tF : Nat) (items : List ScriptItem) (st0 : AgentState) :
    (∃ pre, (run glob acquire tS tA tF items st0).2 =
        pre ++ [Step.collect,
          Step.report (report_filename (run glob acquire tS tA tF items st0).1)]) ∧
    Step.releaseServer ∉ (runLoop glob st0 items).2 ∧
    (acquire = none →
      ∃ pre, (run glob acquire tS tA tF items st0).2 =
        pre ++ [Step.releaseServer, Step.collect,
          Step.report (report_filename (run glob acquire tS tA tF items st0).1)]) := by
  refine ⟨?_, runLoop_no_release glob items st0, ?_⟩
  · match acquire with
    | some msg =>
      exact ⟨[Step.logEvent ⟨tF, "MCP Server Error", none, some msg⟩], by simp [run]⟩
    | none =>
      refine ⟨Step.logEvent ⟨tS, "MCP Server Started", some "Server initialized successfully", none⟩ ::
        Step.logEvent ⟨tA, "AI Agent Created", some "Agent initialized successfully", none⟩ ::
        (runLoop glob (log_action (log_action st0 tS "MCP Server Started"
          (some "Server initialized successfully") none) tA "AI Agent Created"
          (some "Agent initialized successfully") none) items).2 ++ [Step.releaseServer], ?_⟩
      simp [run]
  · match acquire with
    | some msg => exact fun h => Option.noConfusion h
    | none =>
      refine fun _ => ⟨Step.logEvent ⟨tS, "MCP Server Started", some "Server initialized successfully", none⟩ ::
        Step.logEvent ⟨tA, "AI Agent Created", some "Agent initialized successfully", none⟩ ::
        (runLoop glob (log_action (log_action st0 tS "MCP Server Started"
          (some "Server initialized successfully") none) tA "AI Agent Created"
          (some "Agent initialized successfully") none) items).2, ?_⟩
      simp [run]

/-- C1 witness: the amended theorem applied to a normal `exit` run. -/
theorem terminating_collect_report_release_order_witness :
    (∃ pre, (run globEmpty none 0 0 0 [exitItem] (AgentState.init "S")).2 =
        pre ++ [Step.collect,
          Step.report (report_filename (run globEmpty none 0 0 0 [exitItem] (AgentState.init "S")).1)]) ∧
    Step.releaseServer ∉ (runLoop globEmpty (AgentState.init "S") [exitItem]).2 ∧
    (∃ pre, (run globEmpty none 0 0 0 [exitItem] (AgentState.init "S")).2 =
        pre ++ [Step.releaseServer, Step.collect,
          Step.report (report_filename (run globEmpty none 0 0 0 [exitItem] (AgentState.init "S")).1)]) := by
  have h := terminating_collect_report_release_order globEmpty none 0 0 0 [exitItem] (AgentState.init "S")
  exact ⟨h.1, h.2.1, h.2.2 rfl⟩

/-! ## C2 — interactive `report` then `exit` -/

/-- C2 counterexample.  The claim says two report FILES exist afterwards.
Both renders write `f"{self.reports_dir}/playwright_session_{self.session_id}.pdf"`
— the identical path — so the teardown render overwrites the on-demand
one and exactly one distinct report path is ever written. -/
theorem report_then_exit_single_file_counterexample :
    reportFilenames (run globEmpty none 0 0 0 [reportItem, exitItem] (AgentState.init "S")).2 =
      ["output/reports/playwright_session_S.pdf",
       "output/reports/playwright_session_S.pdf"] ∧
    (reportFilenames
      (run globEmpty none 0 0 0 [reportItem, exitItem] (AgentState.init "S")).2).dedup.length = 1 := by
  constructor
  · rfl
  · decide

/-- C2 (amended): in the `report`-then-`exit` session, report synthesis
runs exactly twice (once on demand, once on teardown) and both renders
use the same filename, which embeds the `sessionId`; because the names
are identical, a single report file exists afterwards, the teardown
render having overwritten the on-demand one. -/
theorem report_then_exit_two_renders_one_file
    (glob : String → List String) (tS tA tF : Nat) (st0 : AgentState)
    (r e : ScriptItem) (hr : lower r.input = "report") (he : lower e.input = "exit") :
    reportFilenames (run glob none tS tA tF [r, e] st0).2 =
      [report_filename st0, report_filename st0] ∧
    (reportFilenames (run glob none tS tA tF [r, e] st0).2).dedup.length = 1 := by
  have hne : ¬ lower r.input = "exit" := by rw [hr]; decide
  have h1 : reportFilenames (run glob none tS tA tF [r, e] st0).2 =
      [report_filename st0, report_filename st0] := by
    simp [run, runLoop, hne, hr, he, reportFilenames, report_filename,
      AgentState.collect, log_action]
  refine ⟨h1, ?_⟩
  rw [h1]
  simp [List.dedup_cons_of_mem]

/-- C2 witness: the amended theorem on the concrete `report`/`exit` script. -/
theorem report_then_exit_two_renders_one_file_witness :
    reportFilenames (run globEmpty none 0 0 0 [reportItem, exitItem] (AgentState.init "S")).2 =
      [report_filename (AgentState.init "S"), report_filename (AgentState.init "S")] ∧
    (reportFilenames
      (run globEmpty none 0 0 0 [reportItem, exitItem] (AgentState.init "S")).2).dedup.length = 1 :=
  report_then_exit_two_renders_one_file globEmpty 0 0 0 (AgentState.init "S")
    reportItem exitItem rfl rfl

/-! ## C3 — request timeouts -/

/-- C3 counterexample.  In scripted mode a timed-out request does NOT
yield a `RequestTimeout`-tagged event: `asyncio.TimeoutError` escapes to
the single `except Exception` handler of `run_login_automation`, which
logs `"Login Automation Error"` with `str(e) = ""` — the final log
contains no event tagged `"Request Timeout"`, and the resulting state is
identical to the one produced by a generic error with empty message. -/
theorem scripted_timeout_generic_event_counterexample :
    ((run_login_automation globEmpty none 0 0 0 0 "http://site" none none Outcome.timeout
        (AgentState.init "S")).1.session_log.all
      fun e => e.action != "Request Timeout") = true ∧
    (run_login_automation globEmpty none 0 0 0 0 "http://site" none none Outcome.timeout
        (AgentState.init "S")).1.session_log.getLast? =
      some ⟨0, "Login Automation Error", none, some ""⟩ ∧
    (run_login_automation globEmpty none 0 0 0 0 "http://site" none none Outcome.timeout
        (AgentState.init "S")).1 =
      (run_login_automation globEmpty none 0 0 0 0 "http://site" none none (Outcome.err "")
        (AgentState.init "S")).1 := by
  refine ⟨?_, ?_, ?_⟩ <;> rfl

/-- C3 (amended): in interactive mode a timed-out request appends an
event tagged `"Request Timeout"` and the loop continues with the
remaining requests from the updated state; in scripted mode the timeout
is caught by the generic handler, which appends a
`"Login Automation Error"` event whose error text is empty (no
`RequestTimeout` tag), and the orchestrator then proceeds to
`Terminating` (artifact collection followed by report synthesis). -/
theorem timeout_event_and_continuation
    (glob : String → List String) (st : AgentState) (item : ScriptItem)
    (rest : List ScriptItem)
    (hx : ¬ lower item.input = "exit") (hr : ¬ lower item.input = "report")
    (hto : item.outcome = Outcome.timeout)
    (tS tA tC tD : Nat) (url : String) (u p : Option String) (st0 : AgentState) :
    (Event.mk item.t2 "Request Timeout" none (some "Request timed out after 2 minutes") ∈
      (runLoop glob st (item :: rest)).1.session_log) ∧
    (runLoop glob st (item :: rest)).1 =
      (runLoop glob { st with session_log := st.session_log ++
        [⟨item.t1, "User Request: " ++ item.input, none, none⟩,
         ⟨item.t2, "Request Timeout", none, some "Request timed out after 2 minutes"⟩] } rest).1 ∧
    (run_login_automation glob none tS tA tC tD url u p Outcome.timeout st0).1.session_log =
      st0.session_log ++
        [⟨tS, "MCP Server Started", some "Server initialized successfully", none⟩,
         ⟨tA, "AI Agent Created", some "Agent initialized successfully", none⟩,
         ⟨tC, "Login Automation Started", some ("URL: " ++ url), none⟩,
         ⟨tD, "Login Automation Error", none, some ""⟩] ∧
    (∃ pre, (run_login_automation glob none tS tA tC tD url u p Outcome.timeout st0).2.1 =
      pre ++ [Step.collect, Step.report (login_report_filename
        (run_login_automation glob none tS tA tC tD url u p Outcome.timeout st0).1)]) := by
  have hstep : runLoop glob st (item :: rest) =
      (let st2 : AgentState := { st with session_log := st.session_log ++
          [⟨item.t1, "User Request: " ++ item.input, none, none⟩,
           ⟨item.t2, "Request Timeout", none, some "Request timed out after 2 minutes"⟩] }
       let next := runLoop glob st2 rest
       (next.1, Step.logEvent ⟨item.t1, "User Request: " ++ item.input, none, none⟩ ::
         Step.dispatch item.input ::
         Step.logEvent ⟨item.t2, "Request Timeout", none, some "Request timed out after 2 minutes"⟩ ::
         next.2)) := by
    simp [runLoop, hx, hr, hto, dispatchEvent]
  refine ⟨?_, ?_, ?_, ?_⟩
  · rw [hstep]
    obtain ⟨tail, htail⟩ := runLoop_log_append glob rest
      { st with session_log := st.session_log ++
          [⟨item.t1, "User Request: " ++ item.input, none, none⟩,
           ⟨item.t2, "Request Timeout", none, some "Request timed out after 2 minutes"⟩] }
    simp only [htail]
    exact List.mem_append_left _ (by simp)
  · rw [hstep]
  · simp [run_login_automation, log_action, collect_session_log]
  · exact ⟨[Step.logEvent ⟨tS, "MCP Server Started", some "Server initialized successfully", none⟩,
      Step.logEvent ⟨tA, "AI Agent Created", some "Agent initialized successfully", none⟩,
      Step.logEvent ⟨tC, "Login Automation Started", some ("URL: " ++ url), none⟩,
      Step.dispatch (login_command url u p), Step.releaseServer,
      Step.logEvent ⟨tD, "Login Automation Error", none, some ""⟩], by simp [run_login_automation]⟩

/-- C3 witness: the amended theorem applied to one timed-out interactive
request followed by `exit`, and to a timed-out scripted run. -/
theorem timeout_event_and_continuation_witness :
    (Event.mk 2 "Request Timeout" none (some "Request timed out after 2 minutes") ∈
      (runLoop globEmpty (AgentState.init "S")
        [⟨"open the page", 1, Outcome.timeout, 2⟩, exitItem]).1.session_log) ∧
    (runLoop globEmpty (AgentState.init "S")
        [⟨"open the page", 1, Outcome.timeout, 2⟩, exitItem]).1 =
      (runLoop globEmpty { AgentState.init "S" with session_log :=
        (AgentState.init "S").session_log ++
          [⟨1, "User Request: " ++ "open the page", none, none⟩,
           ⟨2, "Request Timeout", none, some "Request timed out after 2 minutes"⟩] } [exitItem]).1 ∧
    (run_login_automation globEmpty none 0 0 0 0 "http://site" none none Outcome.timeout
        (AgentState.init "S")).1.session_log =
      (AgentState.init "S").session_log ++
        [⟨0, "MCP Server Started", some "Server initialized successfully", none⟩,
         ⟨0, "AI Agent Created", some "Agent initialized successfully", none⟩,
         ⟨0, "Login Automation Started", some ("URL: " ++ "http://site"), none⟩,
         ⟨0, "Login Automation Error", none, some ""⟩] ∧
    (∃ pre, (run_login_automation globEmpty none 0 0 0 0 "http://site" none none Outcome.timeout
        (AgentState.init "S")).2.1 =
      pre ++ [Step.collect, Step.report (login_report_filename
        (run_login_automation globEmpty none 0 0 0 0 "http://site" none none Outcome.timeout
          (AgentState.init "S")).1)]) :=
  timeout_event_and_continuation globEmpty (AgentState.init "S")
    ⟨"open the page", 1, Outcome.timeout, 2⟩ [exitItem]
    (by decide) (by decide) rfl 0 0 0 0 "http://site" none none (AgentState.init "S")

/-! ## C4 — startup failure -/

/-- C4 (confirmed): when tool-process acquisition fails before any
request is dispatched, the run goes straight to teardown (the trace is
exactly one logged event, then collect, then report — no dispatch, no
release of a server that never started), the log contains exactly one
event, tagged `"MCP Server Error"` with the error text set, and the
rendered report contains that single entry and a total-action count of
one. -/
theorem startup_failure_single_event_report
    (glob : String → List String) (msg sid : String) (tS tA tF gen : Nat)
    (items : List ScriptItem) (stat : String → FileStatus) :
    (run glob (some msg) tS tA tF items (AgentState.init sid)).1.session_log =
      [⟨tF, "MCP Server Error", none, some msg⟩] ∧
    (run glob (some msg) tS tA tF items (AgentState.init sid)).2 =
      [Step.logEvent ⟨tF, "MCP Server Error", none, some msg⟩,
       Step.collect, Step.report (report_filename
         (run glob (some msg) tS tA tF items (AgentState.init sid)).1)] ∧
    Block.actionHeader 1 "MCP Server Error" ∈
      reportStory "Playwright Automation Report" "Actions Log"
        (run glob (some msg) tS tA tF items (AgentState.init sid)).1 gen stat ∧
    Block.totalActionsLine 1 ∈
      reportStory "Playwright Automation Report" "Actions Log"
        (run glob (some msg) tS tA tF items (AgentState.init sid)).1 gen stat := by
  have hlog : (run glob (some msg) tS tA tF items (AgentState.init sid)).1.session_log =
      [⟨tF, "MCP Server Error", none, some msg⟩] := by
    simp [run, log_action, AgentState.collect, AgentState.init]
  refine ⟨hlog, by simp [run], ?_, ?_⟩
  · simp [reportStory, hlog, entryStory]
  · simp [reportStory, hlog]

/-! ## C6 — degradation of bad artifacts at render time -/

/-- C6 counterexample.  The claim says an artifact whose file VANISHED
degrades to an inline error note.  `generate_pdf_report` guards each
screenshot with `if os.path.exists(screenshot)`, so a vanished file is
silently skipped: the rendered section contains neither an image nor an
error note for it. -/
theorem vanished_artifact_skipped_counterexample :
    screenshotStory statGone ["gone.png"] =
      [Block.pageBreak, Block.heading "Screenshots", Block.spacer] ∧
    Block.imageError "gone.png" ∉ screenshotStory statGone ["gone.png"] ∧
    Block.image "gone.png" ∉ screenshotStory statGone ["gone.png"] := by
  refine ⟨rfl, ?_, ?_⟩ <;> decide

/-- C6 (amended): an artifact whose file still exists but became
unreadable degrades to an inline error note; an artifact whose file
vanished is silently omitted (no note); in neither case does the bad
entry abort the render — every other readable artifact still gets its
image block. -/
theorem render_degrades_unreadable_skips_vanished
    (stat : String → FileStatus) (shots : List String) (s : String) (hs : s ∈ shots) :
    (stat s = FileStatus.unreadable → Block.imageError s ∈ screenshotStory stat shots) ∧
    (stat s = FileStatus.readable → Block.image s ∈ screenshotStory stat shots) ∧
    (stat s = FileStatus.absent → Block.imageError s ∉ screenshotStory stat shots ∧
      Block.image s ∉ screenshotStory stat shots) := by
  have hne : shots ≠ [] := by intro h; subst h; cases hs
  refine ⟨?_, ?_, ?_⟩
  · intro h
    simp only [screenshotStory, if_neg hne]
    refine List.mem_cons_of_mem _ (List.mem_cons_of_mem _ (List.mem_cons_of_mem _ ?_))
    exact List.mem_flatten.mpr ⟨_, List.mem_map_of_mem _ hs, by simp [h]⟩
  · intro h
    simp only [screenshotStory, if_neg hne]
    refine List.mem_cons_of_mem _ (List.mem_cons_of_mem _ (List.mem_cons_of_mem _ ?_))
    exact List.mem_flatten.mpr ⟨_, List.mem_map_of_mem _ hs, by simp [h]⟩
  · intro h
    constructor <;> intro hmem <;>
      simp only [screenshotStory, if_neg hne, List.mem_cons] at hmem
    · rcases hmem with h1 | h1 | h1 | h1
      · exact Block.noConfusion h1
      · exact Block.noConfusion h1
      · exact Block.noConfusion h1
      · obtain ⟨l, hl, hml⟩ := List.mem_flatten.mp h1
        obtain ⟨y, hy, rfl⟩ := List.mem_map.mp hl
        cases hst : stat y <;> rw [hst] at hml
        · exact (List.not_mem_nil _ hml).elim
        · simp only [List.mem_cons, List.not_mem_nil, or_false] at hml
          rcases hml with h2 | h2 | h2
          · exact Block.noConfusion h2
          · exact Block.noConfusion h2
          · exact Block.noConfusion h2
        · simp only [List.mem_singleton] at hml
          cases hml
          rw [h] at hst
          exact FileStatus.noConfusion hst
    · rcases hmem with h1 | h1 | h1 | h1
      · exact Block.noConfusion h1
      · exact Block.noConfusion h1
      · exact Block.noConfusion h1
      · obtain ⟨l, hl, hml⟩ := List.mem_flatten.mp h1
        obtain ⟨y, hy, rfl⟩ := List.mem_map.mp hl
        cases hst : stat y <;> rw [hst] at hml
        · exact (List.not_mem_nil _ hml).elim
        · simp only [List.mem_cons, List.not_mem_nil, or_false] at hml
          rcases hml with h2 | h2 | h2
          · cases h2
            rw [h] at hst
            exact FileStatus.noConfusion hst
          · exact Block.noConfusion h2
          · exact Block.noConfusion h2
        · simp only [List.mem_singleton] at hml
          exact Block.noConfusion hml

/-- C6 witness: the amended theorem on a three-artifact set with one
unreadable, one readable and one vanished file. -/
theorem render_degrades_unreadable_skips_vanished_witness :
    Block.imageError "u.png" ∈ screenshotStory statMixed ["u.png", "r.png", "a.png"] ∧
    Block.image "r.png" ∈ screenshotStory statMixed ["u.png", "r.png", "a.png"] ∧
    (Block.imageError "a.png" ∉ screenshotStory statMixed ["u.png", "r.png", "a.png"] ∧
      Block.image "a.png" ∉ screenshotStory statMixed ["u.png", "r.png", "a.png"]) :=
  ⟨(render_degrades_unreadable_skips_vanished statMixed _ "u.png" (by decide)).1 (by decide),
   (render_degrades_unreadable_skips_vanished statMixed _ "r.png" (by decide)).2.1 (by decide),
   (render_degrades_unreadable_skips_vanished statMixed _ "a.png" (by decide)).2.2 (by decide)⟩

/-! ## C7 — append-only log with non-decreasing timestamps -/

/-- The clock readings a script consumes, in the order `log_action`
reads them. -/
def itemTimes (items : List ScriptItem) : List Nat :=
  items.flatMap fun i => [i.t1, i.t2]

theorem dispatchEvent_timestamp (t : Nat) (o : Outcome) :
    (dispatchEvent t o).timestamp = t := by
  cases o <;> rfl

theorem runLoop_timestamps (glob : String → List String) :
    ∀ (items : List ScriptItem) (st : AgentState),
      ((st.session_log.map Event.timestamp) ++ itemTimes items).Pairwise (· ≤ ·) →
      ((runLoop glob st items).1.session_log.map Event.timestamp).Pairwise (· ≤ ·)
  | [], st => fun h => by
    simpa [runLoop, itemTimes] using h
  | item :: rest, st => fun h => by
    have hsplit : itemTimes (item :: rest) = item.t1 :: item.t2 :: itemTimes rest := rfl
    by_cases hx : lower item.input = "exit"
    · simp only [runLoop, hx, if_pos]
      exact List.Pairwise.sublist (List.sublist_append_left _ _) h
    · by_cases hrep : lower item.input = "report"
      · simp only [runLoop, hx, hrep, if_neg, if_pos, if_false]
        refine runLoop_timestamps glob rest (AgentState.collect glob st) ?_
        rw [collect_session_log]
        refine List.Pairwise.sublist ?_ h
        rw [hsplit]
        exact List.Sublist.append_left
          ((List.sublist_cons_self _ _).trans (List.sublist_cons_self _ _)) _
      · simp only [runLoop, hx, hrep, if_neg, if_false]
        refine runLoop_timestamps glob rest _ ?_
        simp only [List.map_append, List.map_cons, List.map_nil]
        rw [hsplit] at h
        have : st.session_log.map Event.timestamp ++
            (item.t1 :: item.t2 :: itemTimes rest) =
            (st.session_log.map Event.timestamp ++ [item.t1, item.t2]) ++ itemTimes rest := by
          simp
        rw [this] at h
        simpa [dispatchEvent_timestamp] using h

/-- C7 (confirmed): `log_action` appends exactly one event and never
edits or removes earlier ones; artifact collection leaves the log
unchanged; a whole interactive loop only ever appends to the log; and
when the wall-clock readings consumed by a run are non-decreasing, the
timestamps in the final log are non-decreasing. -/
theorem event_log_append_only_monotone
    (glob : String → List String) (st : AgentState) (now : Nat)
    (a : String) (r e : Option String) (items : List ScriptItem)
    (tS tA tF : Nat) (st0 : AgentState) :
    (log_action st now a r e).session_log = st.session_log ++ [⟨now, a, r, e⟩] ∧
    (AgentState.collect glob st).session_log = st.session_log ∧
    (∃ tail, (runLoop glob st items).1.session_log = st.session_log ++ tail) ∧
    (((st0.session_log.map Event.timestamp) ++ tS :: tA :: itemTimes items).Pairwise (· ≤ ·) →
      ((run glob none tS tA tF items st0).1.session_log.map Event.timestamp).Pairwise (· ≤ ·)) := by
  refine ⟨rfl, rfl, runLoop_log_append glob items st, ?_⟩
  intro h
  have hfin : (run glob none tS tA tF items st0).1.session_log =
      (runLoop glob (log_action (log_action st0 tS "MCP Server Started"
        (some "Server initialized successfully") none) tA "AI Agent Created"
        (some "Agent initialized successfully") none) items).1.session_log := by
    simp [run, collect_session_log]
  rw [hfin]
  refine runLoop_timestamps glob items _ ?_
  simp only [log_action, List.map_append, List.map_cons, List.map_nil]
  have : st0.session_log.map Event.timestamp ++ (tS :: tA :: itemTimes items) =
      (st0.session_log.map Event.timestamp ++ [tS, tA]) ++ itemTimes items := by
    simp
  rw [this] at h
  simpa using h

/-- C7 witness: a run whose clock readings are non-decreasing yields a
log with non-decreasing timestamps. -/
theorem event_log_append_only_monotone_witness :
    ((AgentState.init "S").session_log.map Event.timestamp ++
      0 :: 0 :: itemTimes [⟨"go", 1, Outcome.ok "done", 2⟩, ⟨"exit", 3, Outcome.ok "", 3⟩]).Pairwise (· ≤ ·) ∧
    ((run globEmpty none 0 0 0
        [⟨"go", 1, Outcome.ok "done", 2⟩, ⟨"exit", 3, Outcome.ok "", 3⟩]
        (AgentState.init "S")).1.session_log.map Event.timestamp).Pairwise (· ≤ ·) := by
  have h := event_log_append_only_monotone globEmpty (AgentState.init "S") 0 "a" none none
    [⟨"go", 1, Outcome.ok "done", 2⟩, ⟨"exit", 3, Outcome.ok "", 3⟩] 0 0 0 (AgentState.init "S")
  exact ⟨by decide, h.2.2.2 (by decide)⟩

/-! ## C8 — result truncation -/

/-- C8 (confirmed): truncation happens only when the result text is
constructed before appending — full text within the bound, `take bound`
plus `"..."` beyond it; the interactive agent appends the 200-character
truncation, the login workflow the 500-character truncation; and the
renderer emits a stored non-empty result text verbatim. -/
theorem result_truncation_bounds
    (bound : Nat) (s : String)
    (glob : String → List String) (st : AgentState) (item : ScriptItem)
    (rest : List ScriptItem) (text : String)
    (hx : ¬ lower item.input = "exit") (hr : ¬ lower item.input = "report")
    (hok : item.outcome = Outcome.ok text)
    (tS tA tC tD : Nat) (url : String) (u p : Option String) (st0 : AgentState)
    (i : Nat) (ev : Event) (rtext : String)
    (hres : ev.result = some rtext) (hrne : ¬ rtext = "") :
    (s.length ≤ bound → truncateResult bound s = s) ∧
    (bound < s.length → truncateResult bound s = s.take bound ++ "...") ∧
    (Event.mk item.t2 "Request Completed" (some (truncateResult 200 text)) none ∈
      (runLoop glob st (item :: rest)).1.session_log) ∧
    ((run_login_automation glob none tS tA tC tD url u p (Outcome.ok text) st0).1.session_log =
      st0.session_log ++
        [⟨tS, "MCP Server Started", some "Server initialized successfully", none⟩,
         ⟨tA, "AI Agent Created", some "Agent initialized successfully", none⟩,
         ⟨tC, "Login Automation Started", some ("URL: " ++ url), none⟩,
         ⟨tD, "Login Automation Completed", some (truncateResult 500 text), none⟩]) ∧
    Block.resultLine rtext ∈ entryStory i ev := by
  refine ⟨?_, ?_, ?_, ?_, ?_⟩
  · intro h
    simp [truncateResult, Nat.not_lt.mpr h]
  · intro h
    simp [truncateResult, h]
  · have hstep : (runLoop glob st (item :: rest)).1 =
        (runLoop glob { st with session_log := st.session_log ++
          [⟨item.t1, "User Request: " ++ item.input, none, none⟩,
           ⟨item.t2, "Request Completed", some (truncateResult 200 text), none⟩] } rest).1 := by
      simp [runLoop, hx, hr, hok, dispatchEvent]
    rw [hstep]
    obtain ⟨tail, htail⟩ := runLoop_log_append glob rest
      { st with session_log := st.session_log ++
        [⟨item.t1, "User Request: " ++ item.input, none, none⟩,
         ⟨item.t2, "Request Completed", some (truncateResult 200 text), none⟩] }
    simp only [htail]
    exact List.mem_append_left _ (by simp)
  · simp [run_login_automation, log_action, collect_session_log]
  · simp [entryStory, hres, hrne]

/-- C8 witness: truncation evaluated at a concrete over-long and short
result, plus the rendered result line of a concrete event. -/
theorem result_truncation_bounds_witness :
    (truncateResult 3 "ab" = "ab") ∧
    (truncateResult 3 "abcdef" = "abcdef".take 3 ++ "...") ∧
    (Event.mk 2 "Request Completed" (some (truncateResult 200 "done")) none ∈
      (runLoop globEmpty (AgentState.init "S")
        [⟨"go", 1, Outcome.ok "done", 2⟩]).1.session_log) ∧
    Block.resultLine "done" ∈ entryStory 1 ⟨2, "Request Completed", some "done", none⟩ := by
  have h := result_truncation_bounds 3 "ab" globEmpty (AgentState.init "S")
    ⟨"go", 1, Outcome.ok "done", 2⟩ [] "done" (by decide) (by decide) rfl
    0 0 0 0 "http://site" none none (AgentState.init "S")
    1 ⟨2, "Request Completed", some "done", none⟩ "done" rfl (by decide)
  have h2 := result_truncation_bounds 3 "abcdef" globEmpty (AgentState.init "S")
    ⟨"go", 1, Outcome.ok "done", 2⟩ [] "done" (by decide) (by decide) rfl
    0 0 0 0 "http://site" none none (AgentState.init "S")
    1 ⟨2, "Request Completed", some "done", none⟩ "done" rfl (by decide)
  exact ⟨h.1 (by decide), h2.2.1 (by decide), h.2.2.1, h.2.2.2.2⟩

/-! ## C9 — reserved tokens are matched by exact lowercased equality -/

/-- C9 (confirmed): an input line is a command exactly when its
lowercased whole text equals `"exit"` or `"report"`; any other line —
including ones with leading or trailing whitespace around a token — is
dispatched to the controller as an ordinary request.  In `src/agent.py`
only `exit` is reserved and `report` is dispatched like any other text. -/
theorem reserved_tokens_exact_lowercase
    (s : String) (glob : String → List String) (st : AgentState)
    (item : ScriptItem) (rest : List ScriptItem) :
    (classifyInput s = InputKind.dispatchReq ↔ (¬ lower s = "exit" ∧ ¬ lower s = "report")) ∧
    (classifyInputBasic s = InputKind.dispatchReq ↔ ¬ lower s = "exit") ∧
    (classifyInput item.input = InputKind.dispatchReq →
      Step.dispatch item.input ∈ (runLoop glob st (item :: rest)).2) ∧
    (classifyInput item.input = InputKind.exitCmd → runLoop glob st (item :: rest) = (st, [])) ∧
    classifyInput " exit" = InputKind.dispatchReq ∧
    classifyInput "exit " = InputKind.dispatchReq ∧
    classifyInput "Exit" = InputKind.exitCmd ∧
    classifyInput "REPORT" = InputKind.reportCmd ∧
    classifyInputBasic "report" = InputKind.dispatchReq := by
  refine ⟨?_, ?_, ?_, ?_, by decide, by decide, by decide, by decide, by decide⟩
  · unfold classifyInput
    split_ifs with h1 h2
    · simp [h1]
    · simp [h1, h2]
    · simp [h1, h2]
  · unfold classifyInputBasic
    split_ifs with h1 <;> simp [h1]
  · intro h
    have hx : ¬ lower item.input = "exit" := by
      intro hc; rw [classifyInput, if_pos hc] at h; exact InputKind.noConfusion h
    have hr : ¬ lower item.input = "report" := by
      intro hc; rw [classifyInput, if_neg hx, if_pos hc] at h; exact InputKind.noConfusion h
    simp [runLoop, hx, hr]
  · intro h
    have hx : lower item.input = "exit" := by
      by_contra hc
      rw [classifyInput, if_neg hc] at h
      by_cases hr : lower item.input = "report"
      · rw [if_pos hr] at h; exact InputKind.noConfusion h
      · rw [if_neg hr] at h; exact InputKind.noConfusion h
    simp [runLoop, hx]

/-- C9 witness: the characterization applied to `" exit"` (dispatched),
with the dispatch visible in the trace, and to `"Exit"` (command). -/
theorem reserved_tokens_exact_lowercase_witness :
    (classifyInput " exit" = InputKind.dispatchReq ↔
      (¬ lower " exit" = "exit" ∧ ¬ lower " exit" = "report")) ∧
    Step.dispatch " exit" ∈
      (runLoop globEmpty (AgentState.init "S") [⟨" exit", 0, Outcome.ok "", 0⟩]).2 ∧
    runLoop globEmpty (AgentState.init "S") [⟨"Exit", 0, Outcome.ok "", 0⟩] =
      (AgentState.init "S", []) := by
  have h := reserved_tokens_exact_lowercase " exit" globEmpty (AgentState.init "S")
    ⟨" exit", 0, Outcome.ok "", 0⟩ []
  have h2 := reserved_tokens_exact_lowercase "Exit" globEmpty (AgentState.init "S")
    ⟨"Exit", 0, Outcome.ok "", 0⟩ []
  exact ⟨h.1, h.2.2.1 (by decide), h2.2.2.2.1 (by decide)⟩

/-! ## C10 — the on-demand `report` command leaves the log unchanged -/

/-- C10 (confirmed): a `report` line performs artifact collection and
report synthesis and nothing else — the event log is unchanged, the loop
continues from the collected state, and the total-action count shown in
the on-demand report equals the number of events logged before the
command (the report generation itself is not counted). -/
theorem report_command_leaves_log_unchanged
    (glob : String → List String) (st : AgentState) (item : ScriptItem)
    (rest : List ScriptItem) (gen : Nat) (stat : String → FileStatus)
    (hr : lower item.input = "report") :
    runLoop glob st (item :: rest) =
      ((runLoop glob (AgentState.collect glob st) rest).1,
        Step.collect :: Step.report (report_filename (AgentState.collect glob st)) ::
          (runLoop glob (AgentState.collect glob st) rest).2) ∧
    (AgentState.collect glob st).session_log = st.session_log ∧
    Block.totalActionsLine st.session_log.length ∈
      reportStory "Playwright Automation Report" "Actions Log"
        (AgentState.collect glob st) gen stat := by
  have hx : ¬ lower item.input = "exit" := by rw [hr]; decide
  refine ⟨by simp [runLoop, hx, hr], rfl, ?_⟩
  simp [reportStory, collect_session_log]

/-- C10 witness: the `report` command on a concrete state with one
logged event. -/
theorem report_command_leaves_log_unchanged_witness :
    runLoop globEmpty (log_action (AgentState.init "S") 0 "MCP Server Started"
        (some "Server initialized successfully") none) [reportItem] =
      ((runLoop globEmpty (AgentState.collect globEmpty
          (log_action (AgentState.init "S") 0 "MCP Server Started"
            (some "Server initialized successfully") none)) []).1,
        Step.collect :: Step.report (report_filename (AgentState.collect globEmpty
          (log_action (AgentState.init "S") 0 "MCP Server Started"
            (some "Server initialized successfully") none))) ::
          (runLoop globEmpty (AgentState.collect globEmpty
            (log_action (AgentState.init "S") 0 "MCP Server Started"
              (some "Server initialized successfully") none)) []).2) ∧
    (AgentState.collect globEmpty (log_action (AgentState.init "S") 0 "MCP Server Started"
        (some "Server initialized successfully") none)).session_log =
      (log_action (AgentState.init "S") 0 "MCP Server Started"
        (some "Server initialized successfully") none).session_log ∧
    Block.totalActionsLine (log_action (AgentState.init "S") 0 "MCP Server Started"
        (some "Server initialized successfully") none).session_log.length ∈
      reportStory "Playwright Automation Report" "Actions Log"
        (AgentState.collect globEmpty (log_action (AgentState.init "S") 0 "MCP Server Started"
          (some "Server initialized successfully") none)) 0 statGone :=
  report_command_leaves_log_unchanged globEmpty _ reportItem [] 0 statGone (by decide)

end PlayWrightMCP
